import Mathlib

/-!
Verification of the `orbit.py` module: two physical constants, four pure
gravitational-formula functions, and a passive orbital-elements record.

Embedding choices:
* Python/numpy floating-point scalars are modelled as real numbers (`ℝ`);
  pint `Quantity` values are modelled by their numeric magnitude.
* 3-component numpy arrays are modelled by the structure `Vec3`, with
  `numpy.linalg.norm` as the Euclidean norm `Real.sqrt (x² + y² + z²)`.
* For the division-by-zero edge case, the final division is additionally
  modelled over `FpVal`, a type of IEEE-754-style values (finite real,
  +∞, -∞, NaN), mirroring the silent special-value propagation of numpy:
  numpy emits a warning and returns inf/nan rather than raising.
* The `Orbit` dataclass (all fields defaulting to `None`) is modelled as a
  structure of `Option ℝ` fields defaulting to `none`.
-/

noncomputable section

/-- Source: `GRAVITATIONAL_CONSTANT = Quantity(6.6743e-11, ...)`, in units of
N·m²/kg². -/
def GRAVITATIONAL_CONSTANT : ℝ := 6.6743e-11

/-- Source: `EARTH_ACCEL_CONSTANT = Quantity(3.986018e5, ...)`, in units of
km³/s². -/
def EARTH_ACCEL_CONSTANT : ℝ := 3.986018e5

/-- A 3-component numeric vector (numpy `ndarray` of length 3). -/
@[ext]
structure Vec3 where
  x : ℝ
  y : ℝ
  z : ℝ

/-- Scalar multiplication of a vector, componentwise (numpy broadcasting). -/
def Vec3.smul (c : ℝ) (v : Vec3) : Vec3 :=
  Vec3.mk (c * v.x) (c * v.y) (c * v.z)

/-- Division of a vector by a scalar, componentwise (numpy broadcasting). -/
def Vec3.divs (v : Vec3) (c : ℝ) : Vec3 :=
  Vec3.mk (v.x / c) (v.y / c) (v.z / c)

/-- Source: `numpy.linalg.norm`, the Euclidean norm of a 3-vector. -/
def Vec3.norm (v : Vec3) : ℝ :=
  Real.sqrt (v.x ^ 2 + v.y ^ 2 + v.z ^ 2)

/-- Source: `calculate_gravitational_force(m_0, m_1, r)`:
`-GRAVITATIONAL_CONSTANT * m_0 * m_1 / square(r)`. -/
def calculate_gravitational_force (m_0 m_1 r : ℝ) : ℝ :=
  -GRAVITATIONAL_CONSTANT * m_0 * m_1 / r ^ 2

/-- Source: `calculate_gravitational_force_vector(m_0, m_1, r)`:
`-GRAVITATIONAL_CONSTANT * m_0 * m_1 * r / power(norm(r), 3)`. -/
def calculate_gravitational_force_vector (m_0 m_1 : ℝ) (r : Vec3) : Vec3 :=
  Vec3.divs (Vec3.smul (-GRAVITATIONAL_CONSTANT * m_0 * m_1) r) (Vec3.norm r ^ 3)

/-- Source: `calculate_gravitational_acceleration_vector(m_0, m_1, r)`:
`-GRAVITATIONAL_CONSTANT * (m_0 + m_1) * r / power(norm(r), 3)`. -/
def calculate_gravitational_acceleration_vector (m_0 m_1 : ℝ) (r : Vec3) : Vec3 :=
  Vec3.divs (Vec3.smul (-GRAVITATIONAL_CONSTANT * (m_0 + m_1)) r) (Vec3.norm r ^ 3)

/-- Source: `calculate_gravitation_acceleration_earth(m_0, m_1, r)`:
`-EARTH_ACCEL_CONSTANT * r / power(norm(r), 3)`; the mass parameters are
accepted but unused. -/
def calculate_gravitation_acceleration_earth (m_0 m_1 : ℝ) (r : Vec3) : Vec3 :=
  Vec3.divs (Vec3.smul (-EARTH_ACCEL_CONSTANT) r) (Vec3.norm r ^ 3)

/-- The `Orbit` dataclass: six orbital-element fields, each defaulting to
`None` (modelled as `Option ℝ` defaulting to `none`). -/
structure Orbit where
  alpha : Option ℝ := none
  eccen : Option ℝ := none
  incln : Option ℝ := none
  omega : Option ℝ := none
  perig : Option ℝ := none
  tperi : Option ℝ := none

/-- Constructing an `Orbit` supplying only the eccentricity field, as in
`Orbit(eccen=e)`; every other field takes its declared default. -/
def Orbit.mkEccenOnly (e : ℝ) : Orbit :=
  { eccen := some e }

/-!
### IEEE special-value model for the unguarded division

`FpVal` models an IEEE-754 double as either a finite real or one of the
special values `+∞`, `-∞`, `NaN` (overflow to infinity of finite products
is not modelled; it is irrelevant to the zero-separation edge case, and the
zero literal stands for IEEE `+0`). numpy arithmetic on these values never
raises: division by zero yields `±∞` (or `NaN` for `0/0`) together with a
runtime warning, and the value flows back to the caller.
-/

inductive FpVal where
  | fin : ℝ → FpVal
  | posinf : FpVal
  | neginf : FpVal
  | nan : FpVal

/-- IEEE negation on `FpVal`. -/
def FpVal.neg : FpVal → FpVal
  | .fin a => .fin (-a)
  | .posinf => .neginf
  | .neginf => .posinf
  | .nan => .nan

/-- IEEE multiplication on `FpVal` (finite overflow not modelled). -/
def FpVal.mul : FpVal → FpVal → FpVal
  | .fin a, .fin b => .fin (a * b)
  | .fin a, .posinf => if a = 0 then .nan else if 0 < a then .posinf else .neginf
  | .fin a, .neginf => if a = 0 then .nan else if 0 < a then .neginf else .posinf
  | .posinf, .fin b => if b = 0 then .nan else if 0 < b then .posinf else .neginf
  | .neginf, .fin b => if b = 0 then .nan else if 0 < b then .neginf else .posinf
  | .posinf, .posinf => .posinf
  | .posinf, .neginf => .neginf
  | .neginf, .posinf => .neginf
  | .neginf, .neginf => .posinf
  | _, _ => .nan

/-- IEEE division on `FpVal`: a finite value divided by (positive) zero is
`±∞` by sign of the numerator, and `0 / 0` is `NaN`; no error is raised. -/
def FpVal.div : FpVal → FpVal → FpVal
  | .fin a, .fin b =>
      if b = 0 then (if a = 0 then .nan else if 0 < a then .posinf else .neginf)
      else .fin (a / b)
  | .fin _, .posinf => .fin 0
  | .fin _, .neginf => .fin 0
  | .posinf, .fin b => if 0 ≤ b then .posinf else .neginf
  | .neginf, .fin b => if 0 ≤ b then .neginf else .posinf
  | _, _ => .nan

/-- Whether an `FpVal` is an ordinary finite value (not `±∞`, not `NaN`). -/
def FpVal.isFinite : FpVal → Bool
  | .fin _ => true
  | _ => false

/-- Squaring of a scalar, as `numpy.square`: `r * r`. -/
def FpVal.square (r : FpVal) : FpVal :=
  r.mul r

/-- The function `calculate_gravitational_force` with its arithmetic carried out over
IEEE-style values: `-GRAVITATIONAL_CONSTANT * m_0 * m_1 / square(r)` with
the same left-to-right operation order as the source. -/
def calculate_gravitational_force_fp (m_0 m_1 r : FpVal) : FpVal :=
  ((((FpVal.fin GRAVITATIONAL_CONSTANT).neg).mul m_0).mul m_1).div (FpVal.square r)

/-- The function `calculate_gravitational_force_vector` with the final division modelled
over IEEE-style values. All earlier sub-expressions (`-G * m_0 * m_1 * r`
componentwise, and `power(norm(r), 3)`) involve only finite inputs and are
computed in `ℝ`; only the last, unguarded division can produce a special
value. -/
def calculate_gravitational_force_vector_fp (m_0 m_1 : ℝ) (r : Vec3) :
    FpVal × FpVal × FpVal :=
  let n := Vec3.norm r ^ 3
  ((FpVal.fin (-GRAVITATIONAL_CONSTANT * m_0 * m_1 * r.x)).div (FpVal.fin n),
   (FpVal.fin (-GRAVITATIONAL_CONSTANT * m_0 * m_1 * r.y)).div (FpVal.fin n),
   (FpVal.fin (-GRAVITATIONAL_CONSTANT * m_0 * m_1 * r.z)).div (FpVal.fin n))

end

/-!
## Helper lemmas about `Vec3.norm`
-/

theorem Vec3.norm_eq_zero_iff (v : Vec3) :
    Vec3.norm v = 0 ↔ v = Vec3.mk 0 0 0 := by
  unfold Vec3.norm
  rw [Real.sqrt_eq_zero (by positivity)]
  constructor
  · intro h
    have hx2 : v.x ^ 2 = 0 :=
      le_antisymm (by nlinarith [sq_nonneg v.y, sq_nonneg v.z]) (sq_nonneg _)
    have hy2 : v.y ^ 2 = 0 :=
      le_antisymm (by nlinarith [sq_nonneg v.x, sq_nonneg v.z]) (sq_nonneg _)
    have hz2 : v.z ^ 2 = 0 :=
      le_antisymm (by nlinarith [sq_nonneg v.x, sq_nonneg v.y]) (sq_nonneg _)
    have hx := (pow_eq_zero_iff (two_ne_zero)).mp hx2
    have hy := (pow_eq_zero_iff (two_ne_zero)).mp hy2
    have hz := (pow_eq_zero_iff (two_ne_zero)).mp hz2
    cases v
    simp_all
  · intro h
    subst h
    norm_num

theorem Vec3.norm_pos (v : Vec3) (h : v ≠ Vec3.mk 0 0 0) : 0 < Vec3.norm v := by
  rcases lt_or_eq_of_le (Real.sqrt_nonneg (v.x ^ 2 + v.y ^ 2 + v.z ^ 2)) with hlt | heq
  · exact hlt
  · exact absurd ((Vec3.norm_eq_zero_iff v).mp heq.symm) h

theorem Vec3.norm_smul (c : ℝ) (v : Vec3) :
    Vec3.norm (Vec3.smul c v) = |c| * Vec3.norm v := by
  unfold Vec3.norm Vec3.smul
  rw [show (c * v.x) ^ 2 + (c * v.y) ^ 2 + (c * v.z) ^ 2
        = c ^ 2 * (v.x ^ 2 + v.y ^ 2 + v.z ^ 2) by ring,
    Real.sqrt_mul (sq_nonneg c), Real.sqrt_sq_eq_abs]

theorem Vec3.norm_divs (v : Vec3) (c : ℝ) :
    Vec3.norm (Vec3.divs v c) = Vec3.norm v / |c| := by
  unfold Vec3.norm Vec3.divs
  rw [show (v.x / c) ^ 2 + (v.y / c) ^ 2 + (v.z / c) ^ 2
        = (v.x ^ 2 + v.y ^ 2 + v.z ^ 2) / c ^ 2 by ring,
    Real.sqrt_div (by positivity), Real.sqrt_sq_eq_abs]

/-!
## Theorems for the claims
-/

/-- C1: for all masses `m_0`, `m_1` and nonzero scalar separation `r`,
`calculate_gravitational_force` returns exactly `-G * m_0 * m_1 / r²`,
where `G = GRAVITATIONAL_CONSTANT = 6.6743e-11 = 66743 / 10¹⁵`. -/
theorem C1_scalar_force_formula (m_0 m_1 r : ℝ) (hr : r ≠ 0) :
    GRAVITATIONAL_CONSTANT = 66743 / 10 ^ 15 ∧
    calculate_gravitational_force m_0 m_1 r =
      -(66743 / 10 ^ 15) * m_0 * m_1 / r ^ 2 := by
  constructor
  · norm_num [GRAVITATIONAL_CONSTANT]
  · norm_num [calculate_gravitational_force, GRAVITATIONAL_CONSTANT]

/-- Witness for C1 at `m_0 = 2`, `m_1 = 3`, `r = 1`. -/
theorem C1_scalar_force_formula_witness :
    (1 : ℝ) ≠ 0 ∧
    (GRAVITATIONAL_CONSTANT = 66743 / 10 ^ 15 ∧
      calculate_gravitational_force 2 3 1 =
        -(66743 / 10 ^ 15) * 2 * 3 / 1 ^ 2) :=
  ⟨by norm_num, C1_scalar_force_formula 2 3 1 (by norm_num)⟩

/-- C2: for all masses and nonzero separation vector `r`, the force vector
is `(-G * m_0 * m_1 / |r|³) • r`; in particular it is a scalar multiple of
`r` (parallel to `r`, sign-flipped for positive masses). -/
theorem C2_force_vector_formula (m_0 m_1 : ℝ) (r : Vec3)
    (hr : r ≠ Vec3.mk 0 0 0) :
    calculate_gravitational_force_vector m_0 m_1 r =
      Vec3.smul (-GRAVITATIONAL_CONSTANT * m_0 * m_1 / Vec3.norm r ^ 3) r ∧
    ∃ c : ℝ, calculate_gravitational_force_vector m_0 m_1 r = Vec3.smul c r := by
  have h : calculate_gravitational_force_vector m_0 m_1 r =
      Vec3.smul (-GRAVITATIONAL_CONSTANT * m_0 * m_1 / Vec3.norm r ^ 3) r := by
    simp only [calculate_gravitational_force_vector, Vec3.smul, Vec3.divs,
      Vec3.mk.injEq]
    exact ⟨by ring, by ring, by ring⟩
  exact ⟨h, ⟨_, h⟩⟩

/-- Witness for C2 at `m_0 = 2`, `m_1 = 3`, `r = (1, 0, 0)`. -/
theorem C2_force_vector_formula_witness :
    Vec3.mk 1 0 0 ≠ Vec3.mk 0 0 0 ∧
    (calculate_gravitational_force_vector 2 3 (Vec3.mk 1 0 0) =
      Vec3.smul (-GRAVITATIONAL_CONSTANT * 2 * 3 / Vec3.norm (Vec3.mk 1 0 0) ^ 3)
        (Vec3.mk 1 0 0) ∧
    ∃ c : ℝ, calculate_gravitational_force_vector 2 3 (Vec3.mk 1 0 0) =
      Vec3.smul c (Vec3.mk 1 0 0)) :=
  ⟨by simp [Vec3.mk.injEq],
   C2_force_vector_formula 2 3 (Vec3.mk 1 0 0) (by simp [Vec3.mk.injEq])⟩

/-- C3: for all masses and nonzero separation vector `r`, the acceleration
vector is `(-G * (m_0 + m_1) / |r|³) • r` — the combined-mass two-body
relative acceleration, not a single-test-mass approximation. -/
theorem C3_acceleration_vector_formula (m_0 m_1 : ℝ) (r : Vec3)
    (hr : r ≠ Vec3.mk 0 0 0) :
    calculate_gravitational_acceleration_vector m_0 m_1 r =
      Vec3.smul (-GRAVITATIONAL_CONSTANT * (m_0 + m_1) / Vec3.norm r ^ 3) r := by
  simp only [calculate_gravitational_acceleration_vector, Vec3.smul, Vec3.divs,
    Vec3.mk.injEq]
  exact ⟨by ring, by ring, by ring⟩

/-- Witness for C3 at `m_0 = 2`, `m_1 = 3`, `r = (0, 1, 0)`. -/
theorem C3_acceleration_vector_formula_witness :
    Vec3.mk 0 1 0 ≠ Vec3.mk 0 0 0 ∧
    calculate_gravitational_acceleration_vector 2 3 (Vec3.mk 0 1 0) =
      Vec3.smul (-GRAVITATIONAL_CONSTANT * (2 + 3) / Vec3.norm (Vec3.mk 0 1 0) ^ 3)
        (Vec3.mk 0 1 0) :=
  ⟨by simp [Vec3.mk.injEq],
   C3_acceleration_vector_formula 2 3 (Vec3.mk 0 1 0) (by simp [Vec3.mk.injEq])⟩

/-- C4: for all masses and nonzero separation vector `r`, the Earth-model
acceleration is `(-μ_Earth / |r|³) • r`, where
`μ_Earth = EARTH_ACCEL_CONSTANT = 3.986018e5 = 3986018 / 10`; the two mass
parameters are accepted by the interface (the function is applied to them)
even though the result never depends on them. -/
theorem C4_earth_acceleration_formula (m_0 m_1 : ℝ) (r : Vec3)
    (hr : r ≠ Vec3.mk 0 0 0) :
    EARTH_ACCEL_CONSTANT = 3986018 / 10 ∧
    calculate_gravitation_acceleration_earth m_0 m_1 r =
      Vec3.smul (-(3986018 / 10) / Vec3.norm r ^ 3) r := by
  have hE : EARTH_ACCEL_CONSTANT = 3986018 / 10 := by
    norm_num [EARTH_ACCEL_CONSTANT]
  refine ⟨hE, ?_⟩
  simp only [calculate_gravitation_acceleration_earth, Vec3.smul, Vec3.divs,
    hE, Vec3.mk.injEq]
  exact ⟨by ring, by ring, by ring⟩

/-- Witness for C4 at `m_0 = 1`, `m_1 = 1`, `r = (7000, 0, 0)`. -/
theorem C4_earth_acceleration_formula_witness :
    Vec3.mk 7000 0 0 ≠ Vec3.mk 0 0 0 ∧
    (EARTH_ACCEL_CONSTANT = 3986018 / 10 ∧
    calculate_gravitation_acceleration_earth 1 1 (Vec3.mk 7000 0 0) =
      Vec3.smul (-(3986018 / 10) / Vec3.norm (Vec3.mk 7000 0 0) ^ 3)
        (Vec3.mk 7000 0 0)) :=
  ⟨by simp [Vec3.mk.injEq],
   C4_earth_acceleration_formula 1 1 (Vec3.mk 7000 0 0) (by simp [Vec3.mk.injEq])⟩

/-- C5 counterexample: at `m_0 = 1`, `m_1 = 1`, `r = (1, 0, 0)`, the
acceleration vector scaled by `m_1 = 1` is `(-2G, 0, 0)` while the force
vector is `(-G, 0, 0)` — a factor-2 discrepancy, so the claimed
`F = m_1 · a` identity fails (far outside any floating-point tolerance). -/
theorem C5_mass_scaling_counterexample :
    Vec3.smul 1 (calculate_gravitational_acceleration_vector 1 1 (Vec3.mk 1 0 0)) ≠
      calculate_gravitational_force_vector 1 1 (Vec3.mk 1 0 0) := by
  have hn : Vec3.norm (Vec3.mk 1 0 0) = 1 := by
    simp [Vec3.norm]
  intro h
  have hx := congrArg Vec3.x h
  simp only [calculate_gravitational_acceleration_vector,
    calculate_gravitational_force_vector, Vec3.smul, Vec3.divs, hn,
    GRAVITATIONAL_CONSTANT] at hx
  norm_num at hx

/-- C5 amended: the acceleration vector scaled by the reduced mass
`m_0 * m_1 / (m_0 + m_1)` (rather than by `m_1`) equals the force vector,
for every nonzero separation vector, whenever `m_0 + m_1 ≠ 0`. -/
theorem C5_reduced_mass_consistency (m_0 m_1 : ℝ) (r : Vec3)
    (hm : m_0 + m_1 ≠ 0) (hr : r ≠ Vec3.mk 0 0 0) :
    Vec3.smul (m_0 * m_1 / (m_0 + m_1))
        (calculate_gravitational_acceleration_vector m_0 m_1 r) =
      calculate_gravitational_force_vector m_0 m_1 r := by
  have hn : Vec3.norm r ^ 3 ≠ 0 := pow_ne_zero 3 (Vec3.norm_pos r hr).ne'
  simp only [calculate_gravitational_acceleration_vector,
    calculate_gravitational_force_vector, Vec3.smul, Vec3.divs, Vec3.mk.injEq]
  refine ⟨?_, ?_, ?_⟩ <;> (field_simp; ring)

/-- Witness for the amended C5 at `m_0 = 1`, `m_1 = 1`, `r = (1, 0, 0)`. -/
theorem C5_reduced_mass_consistency_witness :
    ((1 : ℝ) + 1 ≠ 0 ∧ Vec3.mk 1 0 0 ≠ Vec3.mk 0 0 0) ∧
    Vec3.smul (1 * 1 / (1 + 1))
        (calculate_gravitational_acceleration_vector 1 1 (Vec3.mk 1 0 0)) =
      calculate_gravitational_force_vector 1 1 (Vec3.mk 1 0 0) :=
  ⟨⟨by norm_num, by simp [Vec3.mk.injEq]⟩,
   C5_reduced_mass_consistency 1 1 (Vec3.mk 1 0 0) (by norm_num)
     (by simp [Vec3.mk.injEq])⟩

/-- C6: the Earth-model acceleration is invariant under any change of the
two mass parameters, and in particular `(1, 1, (7000,0,0))` and
`(5, 9, (7000,0,0))` give identical results. -/
theorem C6_earth_mass_invariance (m_0 m_1 m_0' m_1' : ℝ) (r : Vec3) :
    calculate_gravitation_acceleration_earth m_0 m_1 r =
      calculate_gravitation_acceleration_earth m_0' m_1' r ∧
    calculate_gravitation_acceleration_earth 1 1 (Vec3.mk 7000 0 0) =
      calculate_gravitation_acceleration_earth 5 9 (Vec3.mk 7000 0 0) :=
  ⟨rfl, rfl⟩

/-- C7: for all masses and nonzero separation vector `r`, the Euclidean
norm of the force vector equals the absolute magnitude of the scalar force
evaluated at `|r|` (exactly, in the real-number model). -/
theorem C7_vector_scalar_magnitude_agreement (m_0 m_1 : ℝ) (r : Vec3)
    (hr : r ≠ Vec3.mk 0 0 0) :
    Vec3.norm (calculate_gravitational_force_vector m_0 m_1 r) =
      |calculate_gravitational_force m_0 m_1 (Vec3.norm r)| := by
  have hN : 0 < Vec3.norm r := Vec3.norm_pos r hr
  simp only [calculate_gravitational_force_vector, calculate_gravitational_force]
  rw [Vec3.norm_divs, Vec3.norm_smul, abs_div,
    abs_of_pos (pow_pos hN 3), abs_of_pos (pow_pos hN 2)]
  field_simp
  ring

/-- Witness for C7 at `m_0 = 2`, `m_1 = 3`, `r = (1, 0, 0)`. -/
theorem C7_vector_scalar_magnitude_agreement_witness :
    Vec3.mk 1 0 0 ≠ Vec3.mk 0 0 0 ∧
    Vec3.norm (calculate_gravitational_force_vector 2 3 (Vec3.mk 1 0 0)) =
      |calculate_gravitational_force 2 3 (Vec3.norm (Vec3.mk 1 0 0))| :=
  ⟨by simp [Vec3.mk.injEq],
   C7_vector_scalar_magnitude_agreement 2 3 (Vec3.mk 1 0 0)
     (by simp [Vec3.mk.injEq])⟩

/-- C8: for positive masses the scalar force is strictly negative at every
nonzero separation, and its magnitude strictly decreases from `r1` to `r2`
whenever `0 < r1 < r2` (inverse-square monotonicity). -/
theorem C8_scalar_force_sign_and_monotonicity (m_0 m_1 r r1 r2 : ℝ)
    (hm0 : 0 < m_0) (hm1 : 0 < m_1) (hr : r ≠ 0) (h1 : 0 < r1) (h12 : r1 < r2) :
    calculate_gravitational_force m_0 m_1 r < 0 ∧
    |calculate_gravitational_force m_0 m_1 r2| <
      |calculate_gravitational_force m_0 m_1 r1| := by
  have hG : (0 : ℝ) < GRAVITATIONAL_CONSTANT := by
    norm_num [GRAVITATIONAL_CONSTANT]
  have hprod : (0 : ℝ) < GRAVITATIONAL_CONSTANT * m_0 * m_1 :=
    mul_pos (mul_pos hG hm0) hm1
  have habs : ∀ s : ℝ, s ≠ 0 →
      |calculate_gravitational_force m_0 m_1 s| =
        GRAVITATIONAL_CONSTANT * m_0 * m_1 / s ^ 2 := by
    intro s hs
    unfold calculate_gravitational_force
    rw [abs_div, abs_of_neg (by nlinarith), abs_of_pos (by positivity)]
    ring
  constructor
  · unfold calculate_gravitational_force
    apply div_neg_of_neg_of_pos
    · nlinarith
    · positivity
  · rw [habs r2 (h1.trans h12).ne', habs r1 h1.ne',
      div_lt_div_iff₀ (pow_pos (h1.trans h12) 2) (pow_pos h1 2)]
    nlinarith [mul_pos hprod
      (mul_pos (sub_pos.mpr h12) (show (0 : ℝ) < r2 + r1 by linarith))]

/-- Witness for C8 at `m_0 = m_1 = 1`, `r = 1`, `r1 = 1`, `r2 = 2`. -/
theorem C8_scalar_force_sign_and_monotonicity_witness :
    (0 : ℝ) < 1 ∧ (0 : ℝ) < 1 ∧ (1 : ℝ) ≠ 0 ∧ (0 : ℝ) < 1 ∧ (1 : ℝ) < 2 ∧
    (calculate_gravitational_force 1 1 1 < 0 ∧
     |calculate_gravitational_force 1 1 2| <
       |calculate_gravitational_force 1 1 1|) :=
  ⟨by norm_num, by norm_num, by norm_num, by norm_num, by norm_num,
   C8_scalar_force_sign_and_monotonicity 1 1 1 1 2
     (by norm_num) (by norm_num) (by norm_num) (by norm_num) (by norm_num)⟩

/-- C9: at zero separation (scalar `r = 0`, or the zero separation vector)
the unguarded division executes and yields a non-finite IEEE value
(`±∞` or `NaN`) for the scalar force and for every component of the force
vector; the functions are total, so the special value is returned to the
caller rather than raised as an error. -/
theorem C9_zero_separation_unguarded (m_0 m_1 : ℝ) :
    (calculate_gravitational_force_fp
        (FpVal.fin m_0) (FpVal.fin m_1) (FpVal.fin 0)).isFinite = false ∧
    (calculate_gravitational_force_vector_fp m_0 m_1
        (Vec3.mk 0 0 0)).1.isFinite = false ∧
    (calculate_gravitational_force_vector_fp m_0 m_1
        (Vec3.mk 0 0 0)).2.1.isFinite = false ∧
    (calculate_gravitational_force_vector_fp m_0 m_1
        (Vec3.mk 0 0 0)).2.2.isFinite = false := by
  have hvec : Vec3.norm (Vec3.mk 0 0 0) = 0 := by
    simp [Vec3.norm]
  refine ⟨?_, ?_, ?_, ?_⟩
  · simp only [calculate_gravitational_force_fp, FpVal.square, FpVal.neg,
      FpVal.mul, FpVal.div, mul_zero, if_pos]
    split_ifs <;> rfl
  all_goals
    simp [calculate_gravitational_force_vector_fp, FpVal.div, FpVal.isFinite,
      hvec]

/-- C10: constructing an `Orbit` with only the eccentricity supplied
succeeds for every real value `e` (no range check against `[0, 1)`), sets
`eccen` to that value, and leaves the other five fields unset. -/
theorem C10_orbit_partial_construction (e : ℝ) :
    (Orbit.mkEccenOnly e).eccen = some e ∧
    (Orbit.mkEccenOnly e).alpha = none ∧
    (Orbit.mkEccenOnly e).incln = none ∧
    (Orbit.mkEccenOnly e).omega = none ∧
    (Orbit.mkEccenOnly e).perig = none ∧
    (Orbit.mkEccenOnly e).tperi = none :=
  ⟨rfl, rfl, rfl, rfl, rfl, rfl⟩
